import Mathlib

/-!
Shallow embedding of the transaction-mapping core of `src/main.py`
(create-ynab-transaction): field normalization (`parse_amount`,
`parse_date`), directory lookup (`get_account_id_from_card_name`,
`get_category_id_from_merchant_name`) and the transaction mapper
(`parse_transaction`).

Modelling conventions:
- Python exceptions raised by the core (`TypeError` for amounts and dates,
  `ValueError` for the account lookup) are represented by the error kinds
  the design names: `InvalidAmount`, `InvalidDate`, `AccountNotFound`;
  fallible functions return `Except YnabError _`.
- Python `float(...)` string parsing and the multiplication by 1000 are
  modelled exactly over `ℚ` (binary floating-point rounding, `inf`/`nan`
  literals and underscore digit separators are not modelled); `int(...)`
  on a finite float is truncation toward zero (`ratTrunc`). Theorems that
  quantify over all amount strings are stated on domains where this
  idealization provably agrees with CPython: remainders containing an
  ASCII character no float literal can contain (rejected by `float()`
  itself), and dyadic values `m / 2 ^ k` small enough that conversion,
  multiplication and truncation are all exact in IEEE-754 doubles.
- `date.fromisoformat` is modelled as strict `YYYY-MM-DD` parsing with
  proleptic-Gregorian calendar validation, as the design describes.
- The module-global `ynab_secrets` directory is passed explicitly as a
  `Secrets` value.
-/

/-- Error kinds of the core, as named by the design. -/
inductive YnabError where
  | InvalidAmount
  | InvalidDate
  | AccountNotFound
deriving DecidableEq, Repr

/-- One entry of the `accounts` directory. The entries come from untyped
JSON dictionaries read with `dict.get`, so both fields may be absent. -/
structure Account where
  name : Option String
  id : Option String
deriving DecidableEq, Repr

/-- One entry of the `merchants` directory; fields may be absent, as for
`Account`. -/
structure Merchant where
  name : Option String
  category_id : Option String
deriving DecidableEq, Repr

/-- The parts of the module-global `ynab_secrets` directory the mapping
core reads (`ynab_secrets.get("accounts", [])`,
`ynab_secrets.get("merchants", [])`). -/
structure Secrets where
  accounts : List Account
  merchants : List Merchant
deriving DecidableEq, Repr

/-- `TransactionPostDto`: the request payload, all fields strings. -/
structure TransactionPostDto where
  amount : String
  name : String
  card : String
  merchant : String
  date : String
deriving DecidableEq, Repr

/-- A Python `datetime.date` value. -/
structure PyDate where
  year : ℕ
  month : ℕ
  day : ℕ
deriving DecidableEq, Repr

/-- `ynab.NewTransaction` restricted to the fields `parse_transaction`
sets. `account_id` is optional because `account.get("id")` may be `None`. -/
structure NewTransaction where
  account_id : Option String
  date : PyDate
  amount : ℤ
  payee_name : String
  category_id : Option String
deriving DecidableEq, Repr

/-- Characters removed by Python `str.strip()`: the Unicode whitespace
set of `str.isspace` (ASCII whitespace and separators, NEL, NBSP, Ogham
space mark, the U+2000 range, line/paragraph separators, narrow NBSP,
medium mathematical space, ideographic space). -/
def isPySpace (c : Char) : Bool :=
  (0x09 ≤ c.toNat ∧ c.toNat ≤ 0x0d) ∨ (0x1c ≤ c.toNat ∧ c.toNat ≤ 0x1f) ∨
    c.toNat = 0x20 ∨ c.toNat = 0x85 ∨ c.toNat = 0xa0 ∨ c.toNat = 0x1680 ∨
    (0x2000 ≤ c.toNat ∧ c.toNat ≤ 0x200a) ∨ c.toNat = 0x2028 ∨
    c.toNat = 0x2029 ∨ c.toNat = 0x202f ∨ c.toNat = 0x205f ∨ c.toNat = 0x3000

/-- Python `s.strip()`. -/
def pyStrip (s : String) : String :=
  String.mk (((s.toList.dropWhile isPySpace).reverse.dropWhile isPySpace).reverse)

/-- Python `s.replace("$", "")`: delete every dollar sign. -/
def stripDollars (s : String) : String :=
  String.mk (s.toList.filter (fun c => c ≠ '$'))

/-- Numeric value of a (most-significant-first) digit run. -/
def digitsToNat (l : List Char) : ℕ :=
  l.foldl (fun a c => 10 * a + (c.toNat - '0'.toNat)) 0

/-- Exponent part of a `float` literal: optional sign, then digits. -/
def parseExpDigits (cs : List Char) : Option ℤ :=
  match cs with
  | [] => none
  | x :: ds =>
    if x = '+' then
      if ds ≠ [] ∧ ds.all Char.isDigit then some (digitsToNat ds) else none
    else if x = '-' then
      if ds ≠ [] ∧ ds.all Char.isDigit then some (-(digitsToNat ds : ℤ)) else none
    else if (x :: ds).all Char.isDigit then some (digitsToNat (x :: ds))
    else none

/-- Value of `ip . fp`; at least one digit is required overall. -/
def parseMantissa (ip fp : List Char) : Option ℚ :=
  if ip = [] ∧ fp = [] then none
  else some ((digitsToNat ip : ℚ) + (digitsToNat fp : ℚ) / (10 : ℚ) ^ fp.length)

/-- Fractional-part-onward piece of a `float` literal after the point:
`digits? [ (e|E) exp ]`, combined with the integer part `ip`. -/
def parseAfterPoint (ip rest2 : List Char) : Option ℚ :=
  let fp := rest2.takeWhile Char.isDigit
  match rest2.dropWhile Char.isDigit with
  | [] => parseMantissa ip fp
  | x :: ecs =>
    if x = 'e' ∨ x = 'E' then
      (parseMantissa ip fp).bind
        (fun q => (parseExpDigits ecs).map (fun e => q * (10 : ℚ) ^ e))
    else none

/-- Unsigned part of a `float` literal: `digits [. digits] [exp]` or
`. digits [exp]`. -/
def parseUnsigned (cs : List Char) : Option ℚ :=
  let ip := cs.takeWhile Char.isDigit
  match cs.dropWhile Char.isDigit with
  | [] => if ip = [] then none else some (digitsToNat ip)
  | x :: rest2 =>
    if x = '.' then parseAfterPoint ip rest2
    else if x = 'e' ∨ x = 'E' then
      if ip = [] then none
      else (parseExpDigits rest2).map (fun e => (digitsToNat ip : ℚ) * (10 : ℚ) ^ e)
    else none

/-- Python `float(s)` string parsing on an already-stripped string, with
the float value idealized as the exact decimal rational. `none` models
`ValueError`. The idealization drops IEEE-754 double rounding, and the
grammar omits the underscore digit separators and `inf`/`nan` literals
that `float()` also accepts; theorems that quantify over all strings
therefore restrict themselves either to remainders containing a character
no Python float literal can contain (`floatAlphabet`) or to dyadic values
on which the double pipeline is exact. -/
def parseFloat (s : String) : Option ℚ :=
  match s.toList with
  | [] => parseUnsigned []
  | x :: rest =>
    if x = '+' then parseUnsigned rest
    else if x = '-' then (parseUnsigned rest).map (fun q => -q)
    else parseUnsigned (x :: rest)

/-- Characters the embedded float grammar can consume. -/
def modelAlphabet (c : Char) : Bool :=
  c.isDigit || c = '+' || c = '-' || c = '.' || c = 'e' || c = 'E'

/-- Characters that can occur in a string accepted by Python `float()`
once surrounding whitespace is stripped: ASCII digits, sign, point,
underscore separators, exponent markers, and the letters of
`inf`/`infinity`/`nan` in either case. (Non-ASCII characters are handled
separately: Python also accepts Unicode decimal digits.) -/
def floatAlphabet (c : Char) : Bool :=
  c.isDigit || c = '+' || c = '-' || c = '.' || c = '_' || c = 'e' || c = 'E' ||
    c = 'i' || c = 'n' || c = 'f' || c = 't' || c = 'y' || c = 'a' ||
    c = 'I' || c = 'N' || c = 'F' || c = 'T' || c = 'Y' || c = 'A'

/-- Python `int(...)` applied to a (finite) float value: truncation toward
zero (`Int.tdiv` is T-division, matching CPython's float-to-int cast). -/
def ratTrunc (q : ℚ) : ℤ :=
  Int.tdiv q.num (q.den : ℤ)

/-- `parse_amount` from `src/main.py`: remove every `$`, strip whitespace,
parse as a float, multiply by 1000 and truncate to an integer; a parse
failure (`ValueError`) is re-raised as the `InvalidAmount` kind. Python's
`int()` additionally raises an uncaught `OverflowError` on infinite float
values (`inf`/`nan` literals, overflowing magnitudes); that path lies
outside this embedding (see `parseFloat`), and the theorems below only
assert failure for remainders Python's `float()` itself rejects. -/
def parse_amount (amount_str : String) : Except YnabError ℤ :=
  match parseFloat (pyStrip (stripDollars amount_str)) with
  | some q => .ok (ratTrunc (q * 1000))
  | none => .error .InvalidAmount

/-- Substring before the first `T`: Python `date_str.split("T")[0]`. -/
def takeBeforeT (s : String) : String :=
  String.mk (s.toList.takeWhile (fun c => c ≠ 'T'))

/-- Gregorian leap-year test used by Python's `datetime`. -/
def isLeap (y : ℕ) : Bool :=
  (y % 4 = 0 ∧ y % 100 ≠ 0) ∨ y % 400 = 0

/-- Days in a month, as validated by `datetime.date`. -/
def daysInMonth (y m : ℕ) : ℕ :=
  if m = 2 then (if isLeap y then 29 else 28)
  else if m = 4 ∨ m = 6 ∨ m = 9 ∨ m = 11 then 30
  else 31

/-- `datetime.date(y, m, d)` with its range checks (`MINYEAR = 1`,
`MAXYEAR = 9999`); `none` models `ValueError`. -/
def mkValidDate (y m d : ℕ) : Option PyDate :=
  if 1 ≤ y ∧ y ≤ 9999 ∧ 1 ≤ m ∧ m ≤ 12 ∧ 1 ≤ d ∧ d ≤ daysInMonth y m then
    some ⟨y, m, d⟩
  else none

/-- `date.fromisoformat`: strict `YYYY-MM-DD` with calendar validation. -/
def dateFromIso (s : String) : Option PyDate :=
  match s.toList with
  | [y1, y2, y3, y4, '-', m1, m2, '-', d1, d2] =>
    if [y1, y2, y3, y4, m1, m2, d1, d2].all Char.isDigit then
      mkValidDate (digitsToNat [y1, y2, y3, y4]) (digitsToNat [m1, m2])
        (digitsToNat [d1, d2])
    else none
  | _ => none

/-- `parse_date` from `src/main.py`: ISO-parse the part before the first
`T`; a `ValueError` is re-raised as the `InvalidDate` kind. -/
def parse_date (date_str : String) : Except YnabError PyDate :=
  match dateFromIso (takeBeforeT date_str) with
  | some d => .ok d
  | none => .error .InvalidDate

/-- The `for account in accounts` loop of `get_account_id_from_card_name`:
first entry whose `name` equals the card name wins and its (possibly
absent) `id` is returned; otherwise `ValueError` (`AccountNotFound`). -/
def lookupAccount (accounts : List Account) (card_name : String) :
    Except YnabError (Option String) :=
  match accounts with
  | [] => .error .AccountNotFound
  | a :: rest =>
    if a.name = some card_name then .ok a.id else lookupAccount rest card_name

/-- `get_account_id_from_card_name` from `src/main.py`. -/
def get_account_id_from_card_name (secrets : Secrets) (card_name : String) :
    Except YnabError (Option String) :=
  lookupAccount secrets.accounts card_name

/-- The `for merchant in merchants` loop of
`get_category_id_from_merchant_name`: first entry whose `name` equals the
merchant name wins; no match is `None`, never an error. -/
def lookupCategory (merchants : List Merchant) (merchant_name : String) :
    Option String :=
  match merchants with
  | [] => none
  | m :: rest =>
    if m.name = some merchant_name then m.category_id
    else lookupCategory rest merchant_name

/-- `get_category_id_from_merchant_name` from `src/main.py`. -/
def get_category_id_from_merchant_name (secrets : Secrets)
    (merchant_name : String) : Option String :=
  lookupCategory secrets.merchants merchant_name

/-- `parse_transaction` from `src/main.py`. Python evaluates the keyword
arguments of the `ynab.NewTransaction(...)` call in source order, so the
first raising step (account lookup, then date, then amount) determines the
propagated error. -/
def parse_transaction (secrets : Secrets) (transactionDto : TransactionPostDto) :
    Except YnabError NewTransaction := do
  let account_id ← get_account_id_from_card_name secrets transactionDto.card
  let d ← parse_date transactionDto.date
  let amount ← parse_amount transactionDto.amount
  pure
    { account_id := account_id
      date := d
      amount := amount
      payee_name := transactionDto.merchant
      category_id := get_category_id_from_merchant_name secrets transactionDto.merchant }

deriving instance DecidableEq for Except

/-- Unfolding `parse_amount` on a successful float parse. -/
theorem parse_amount_eq_ok (s : String) (q : ℚ)
    (h : parseFloat (pyStrip (stripDollars s)) = some q) :
    parse_amount s = Except.ok (ratTrunc (q * 1000)) := by
  unfold parse_amount
  rw [h]

/-- Unfolding `parse_amount` on a failed float parse. -/
theorem parse_amount_eq_error (s : String)
    (h : parseFloat (pyStrip (stripDollars s)) = none) :
    parse_amount s = Except.error YnabError.InvalidAmount := by
  unfold parse_amount
  rw [h]

/-- Truncation of an integer-valued rational is that integer. -/
theorem ratTrunc_intCast (n : ℤ) : ratTrunc ((n : ℚ)) = n := by
  unfold ratTrunc
  rw [Rat.num_intCast, Rat.den_intCast]
  simp

/-- Evaluation of `parse_amount` when the milliunit value is exact. -/
theorem parse_amount_eval (s : String) (q : ℚ) (n : ℤ)
    (h1 : parseFloat (pyStrip (stripDollars s)) = some q)
    (h2 : q * 1000 = (n : ℚ)) :
    parse_amount s = Except.ok n := by
  rw [parse_amount_eq_ok s q h1, h2, ratTrunc_intCast]

/-- Every character the model grammar consumes is also a character a
Python float literal can contain. -/
theorem modelAlphabet_le_floatAlphabet (c : Char)
    (h : modelAlphabet c = true) : floatAlphabet c = true := by
  simp only [modelAlphabet, Bool.or_eq_true, decide_eq_true_eq] at h
  simp only [floatAlphabet, Bool.or_eq_true, decide_eq_true_eq]
  tauto

/-- A successful exponent parse only consumes sign and digit characters. -/
theorem parseExpDigits_chars (ecs : List Char) (e : ℤ)
    (h : parseExpDigits ecs = some e) : ∀ c ∈ ecs, modelAlphabet c = true := by
  intro c hc
  rcases ecs with _ | ⟨x, ds⟩
  · cases hc
  · simp only [parseExpDigits] at h
    by_cases hx : x = '+'
    · rw [if_pos hx] at h
      split_ifs at h with hd
      rcases List.mem_cons.mp hc with rfl | hcd
      · simp [modelAlphabet, hx]
      · have := List.all_eq_true.mp hd.2 c hcd
        simp [modelAlphabet, this]
    · rw [if_neg hx] at h
      by_cases hx2 : x = '-'
      · rw [if_pos hx2] at h
        split_ifs at h with hd
        rcases List.mem_cons.mp hc with rfl | hcd
        · simp [modelAlphabet, hx2]
        · have := List.all_eq_true.mp hd.2 c hcd
          simp [modelAlphabet, this]
      · rw [if_neg hx2] at h
        split_ifs at h with hd
        have := List.all_eq_true.mp hd c hc
        simp [modelAlphabet, this]

/-- A successful parse of the after-point piece only consumes digits,
the exponent markers and exponent signs. -/
theorem parseAfterPoint_chars (ip rest2 : List Char) (q : ℚ)
    (h : parseAfterPoint ip rest2 = some q) :
    ∀ c ∈ rest2, modelAlphabet c = true := by
  intro c hc
  have hsplit := List.takeWhile_append_dropWhile Char.isDigit rest2
  rcases hdrop : rest2.dropWhile Char.isDigit with _ | ⟨x, ecs⟩
  · rw [hdrop, List.append_nil] at hsplit
    have hc2 : c ∈ rest2.takeWhile Char.isDigit := by rw [hsplit]; exact hc
    have := List.mem_takeWhile_imp hc2
    simp [modelAlphabet, this]
  · rw [hdrop] at hsplit
    have hc2 : c ∈ rest2.takeWhile Char.isDigit ++ x :: ecs := by
      rw [hsplit]; exact hc
    simp only [parseAfterPoint, hdrop] at h
    split_ifs at h with hx
    rcases List.mem_append.mp hc2 with hfp | hxe
    · have := List.mem_takeWhile_imp hfp
      simp [modelAlphabet, this]
    · rcases List.mem_cons.mp hxe with rfl | hce
      · rcases hx with rfl | rfl <;> simp [modelAlphabet]
      · rcases Option.bind_eq_some.mp h with ⟨qm, -, hmap⟩
        rcases Option.map_eq_some'.mp hmap with ⟨e, he, -⟩
        exact parseExpDigits_chars ecs e he c hce

/-- A successful unsigned-literal parse only consumes characters of the
model grammar. -/
theorem parseUnsigned_chars (cs : List Char) (q : ℚ)
    (h : parseUnsigned cs = some q) : ∀ c ∈ cs, modelAlphabet c = true := by
  intro c hc
  have hsplit := List.takeWhile_append_dropWhile Char.isDigit cs
  rcases hdrop : cs.dropWhile Char.isDigit with _ | ⟨x, rest2⟩
  · rw [hdrop, List.append_nil] at hsplit
    have hc2 : c ∈ cs.takeWhile Char.isDigit := by rw [hsplit]; exact hc
    have := List.mem_takeWhile_imp hc2
    simp [modelAlphabet, this]
  · rw [hdrop] at hsplit
    have hc2 : c ∈ cs.takeWhile Char.isDigit ++ x :: rest2 := by
      rw [hsplit]; exact hc
    simp only [parseUnsigned, hdrop] at h
    rcases List.mem_append.mp hc2 with hip | hxr
    · have := List.mem_takeWhile_imp hip
      simp [modelAlphabet, this]
    · split_ifs at h with h1 h2 h3
      · rcases List.mem_cons.mp hxr with rfl | hcr
        · simp [modelAlphabet, h1]
        · exact parseAfterPoint_chars _ rest2 q h c hcr
      · rcases List.mem_cons.mp hxr with rfl | hcr
        · rcases h2 with rfl | rfl <;> simp [modelAlphabet]
        · rcases Option.map_eq_some'.mp h with ⟨e, he, -⟩
          exact parseExpDigits_chars rest2 e he c hcr

/-- A successful float parse only consumes characters of the model
grammar. -/
theorem parseFloat_chars (s : String) (q : ℚ)
    (h : parseFloat s = some q) : ∀ c ∈ s.toList, modelAlphabet c = true := by
  intro c hc
  rcases hlist : s.toList with _ | ⟨x, rest⟩
  · rw [hlist] at hc; cases hc
  · simp only [parseFloat, hlist] at h
    rw [hlist] at hc
    split_ifs at h with h1 h2
    · rcases List.mem_cons.mp hc with rfl | hcr
      · simp [modelAlphabet, h1]
      · exact parseUnsigned_chars rest q h c hcr
    · rcases List.mem_cons.mp hc with rfl | hcr
      · simp [modelAlphabet, h2]
      · rcases Option.map_eq_some'.mp h with ⟨q2, hq2, -⟩
        exact parseUnsigned_chars rest q2 hq2 c hcr
    · exact parseUnsigned_chars (x :: rest) q h c hc

/-- If the stripped, dollar-free remainder contains an ASCII character
that no Python float literal can contain, `parse_amount` fails with
`InvalidAmount`. (The ASCII bound keeps the statement faithful to
CPython, which also accepts non-ASCII Unicode decimal digits.) -/
theorem parse_amount_invalid_of_badChar (s : String) (c : Char)
    (hc : c ∈ (pyStrip (stripDollars s)).toList) (_hascii : c.toNat < 128)
    (hbad : floatAlphabet c = false) :
    parse_amount s = Except.error YnabError.InvalidAmount := by
  rcases hq : parseFloat (pyStrip (stripDollars s)) with _ | q
  · exact parse_amount_eq_error s hq
  · have hall := parseFloat_chars _ q hq c hc
    rw [modelAlphabet_le_floatAlphabet c hall] at hbad
    cases hbad

/-- Unfolding `parse_date` on a failed ISO parse. -/
theorem parse_date_eq_error (s : String)
    (h : dateFromIso (takeBeforeT s) = none) :
    parse_date s = Except.error YnabError.InvalidDate := by
  unfold parse_date
  rw [h]

/-- `takeWhile (· ≠ T)` ignores everything after the first `T`. -/
theorem takeWhile_neT_append (l r : List Char) (h : 'T' ∉ l) :
    (l ++ 'T' :: r).takeWhile (fun c => c ≠ 'T') =
      l.takeWhile (fun c => c ≠ 'T') := by
  induction l with
  | nil => simp [List.takeWhile_cons]
  | cons x xs ih =>
    have hx : x ≠ 'T' := fun e => h (by simp [e])
    have hxs : 'T' ∉ xs := fun e => h (by simp [e])
    simp only [List.cons_append, List.takeWhile_cons]
    rw [if_pos (by simp [hx]), if_pos (by simp [hx]), ih hxs]

/-- The part of a date string before the first `T` does not change when a
`T`-separated suffix is appended. -/
theorem takeBeforeT_append (s rest : String) (h : 'T' ∉ s.toList) :
    takeBeforeT (s ++ "T" ++ rest) = takeBeforeT s := by
  unfold takeBeforeT
  have hdata : (s ++ "T" ++ rest).toList = s.toList ++ 'T' :: rest.toList := by
    show (s ++ "T" ++ rest).data = s.data ++ 'T' :: rest.data
    rw [String.data_append, String.data_append, List.append_assoc]
    rfl
  rw [hdata, takeWhile_neT_append s.toList rest.toList h]

/-- Removing every dollar sign is idempotent. -/
theorem stripDollars_idem (s : String) :
    stripDollars (stripDollars s) = stripDollars s := by
  unfold stripDollars
  show String.mk (List.filter _ (List.filter _ s.data)) = _
  rw [List.filter_filter]
  simp

/-- First-match behaviour of the account-lookup loop. -/
theorem lookupAccount_first (card : String) (pre post : List Account)
    (a : Account) (hpre : ∀ b ∈ pre, b.name ≠ some card)
    (ha : a.name = some card) :
    lookupAccount (pre ++ a :: post) card = Except.ok a.id := by
  induction pre with
  | nil => simp [lookupAccount, ha]
  | cons x xs ih =>
    have hx : x.name ≠ some card := hpre x (by simp)
    simp only [List.cons_append, lookupAccount, if_neg hx]
    exact ih fun b hb => hpre b (by simp [hb])

/-- The account-lookup loop raises exactly when no entry's name matches. -/
theorem lookupAccount_error_iff (card : String) (l : List Account) :
    lookupAccount l card = Except.error YnabError.AccountNotFound ↔
      ∀ b ∈ l, b.name ≠ some card := by
  induction l with
  | nil => simp [lookupAccount]
  | cons x xs ih =>
    by_cases hx : x.name = some card
    · simp [lookupAccount, if_pos hx, hx]
    · simp only [lookupAccount, if_neg hx, ih, List.mem_cons]
      constructor
      · intro h b hb
        rcases hb with hb | hb
        · rw [hb]; exact hx
        · exact h b hb
      · intro h b hb
        exact h b (Or.inr hb)

/-- No-match behaviour of the merchant-lookup loop. -/
theorem lookupCategory_none (m : String) (l : List Merchant)
    (h : ∀ e ∈ l, e.name ≠ some m) : lookupCategory l m = none := by
  induction l with
  | nil => rfl
  | cons x xs ih =>
    simp only [lookupCategory, if_neg (h x (by simp))]
    exact ih fun e he => h e (by simp [he])

/-- `parse_transaction` when each of its three fallible steps succeeds. -/
theorem parse_transaction_eq_ok (secrets : Secrets)
    (transactionDto : TransactionPostDto) (acc : Option String) (d : PyDate)
    (amt : ℤ)
    (h1 : get_account_id_from_card_name secrets transactionDto.card = Except.ok acc)
    (h2 : parse_date transactionDto.date = Except.ok d)
    (h3 : parse_amount transactionDto.amount = Except.ok amt) :
    parse_transaction secrets transactionDto = Except.ok
      { account_id := acc
        date := d
        amount := amt
        payee_name := transactionDto.merchant
        category_id :=
          get_category_id_from_merchant_name secrets transactionDto.merchant } := by
  unfold parse_transaction
  rw [h1, h2, h3]
  rfl

/-- `parse_transaction` stops at a failing account lookup. -/
theorem parse_transaction_eq_error_account (secrets : Secrets)
    (transactionDto : TransactionPostDto)
    (h1 : get_account_id_from_card_name secrets transactionDto.card =
      Except.error YnabError.AccountNotFound) :
    parse_transaction secrets transactionDto =
      Except.error YnabError.AccountNotFound := by
  unfold parse_transaction
  rw [h1]
  rfl

/-- `parse_transaction` stops at a failing date parse. -/
theorem parse_transaction_eq_error_date (secrets : Secrets)
    (transactionDto : TransactionPostDto) (acc : Option String)
    (h1 : get_account_id_from_card_name secrets transactionDto.card = Except.ok acc)
    (h2 : parse_date transactionDto.date = Except.error YnabError.InvalidDate) :
    parse_transaction secrets transactionDto =
      Except.error YnabError.InvalidDate := by
  unfold parse_transaction
  rw [h1, h2]
  rfl

/-- `parse_transaction` stops at a failing amount parse. -/
theorem parse_transaction_eq_error_amount (secrets : Secrets)
    (transactionDto : TransactionPostDto) (acc : Option String) (d : PyDate)
    (h1 : get_account_id_from_card_name secrets transactionDto.card = Except.ok acc)
    (h2 : parse_date transactionDto.date = Except.ok d)
    (h3 : parse_amount transactionDto.amount = Except.error YnabError.InvalidAmount) :
    parse_transaction secrets transactionDto =
      Except.error YnabError.InvalidAmount := by
  unfold parse_transaction
  rw [h1, h2, h3]
  rfl

/-- Evaluation of `parse_amount "1.0016"`: the exact value times 1000 is
1001.6, and truncation yields 1001 (CPython agrees: any double within
(1001, 1002) truncates to 1001). -/
theorem parse_amount_10016 : parse_amount "1.0016" = Except.ok 1001 := by
  rw [parse_amount_eq_ok "1.0016" ((1 : ℚ) + 16 / 10 ^ 4) rfl,
    show ((1 : ℚ) + 16 / 10 ^ 4) * 1000 = 5008 / 5 from by norm_num]
  unfold ratTrunc
  rw [show ((5008 : ℚ) / 5).num = 5008 from by norm_num,
    show ((5008 : ℚ) / 5).den = 5 from by norm_num]
  decide

/-- C1: as stated ("parse_amount(s) equals round(parseDecimal(s) * 1000)")
the claim fails: for "1.0016" the exact value times 1000 is 1001.6, whose
rounding is 1002, but `parse_amount` truncates and returns 1001. -/
theorem C1_counterexample :
    parseFloat (pyStrip (stripDollars "1.0016")) = some ((1 : ℚ) + 16 / 10 ^ 4) ∧
    round (((1 : ℚ) + 16 / 10 ^ 4) * 1000) = 1002 ∧
    parse_amount "1.0016" = Except.ok 1001 ∧
    Except.ok (1001 : ℤ) ≠ (Except.ok 1002 : Except YnabError ℤ) :=
  ⟨rfl, by norm_num [round_eq], parse_amount_10016, by decide⟩

/-- C1 (amended): `parse_amount` truncates the parsed value times 1000
toward zero instead of rounding: `parse_amount "$6.22" = 6220`,
`parse_amount "-3.5" = -3500`, and `parse_amount "1.0016" = 1001` (not
the rounding 1002). The truncation identity is asserted universally on
dyadic values `m / 2 ^ k` (`k ≤ 40`, `|m| * 1000 < 2 ^ 53`), where
CPython's double conversion, multiplication by 1000 and `int()` are all
exact; elsewhere double rounding can shift the result by one milliunit
(e.g. CPython yields 1014 for "1.015"), which this embedding does not
model. -/
theorem C1_amount_milliunits :
    (∀ (s : String) (m : ℤ) (k : ℕ), k ≤ 40 → m.natAbs * 1000 < 2 ^ 53 →
      parseFloat (pyStrip (stripDollars s)) = some ((m : ℚ) / 2 ^ k) →
      parse_amount s = Except.ok (ratTrunc ((m : ℚ) / 2 ^ k * 1000))) ∧
    parse_amount "$6.22" = Except.ok 6220 ∧
    parse_amount "-3.5" = Except.ok (-3500) ∧
    parse_amount "1.0016" = Except.ok 1001 :=
  ⟨fun s m k _ _ h => parse_amount_eq_ok s ((m : ℚ) / 2 ^ k) h,
    parse_amount_eval "$6.22" ((6 : ℚ) + 22 / 10 ^ 2) 6220 rfl (by norm_num),
    parse_amount_eval "-3.5" (-((3 : ℚ) + 5 / 10 ^ 1)) (-3500) rfl (by norm_num),
    parse_amount_10016⟩

/-- C1 witness: the dyadic truncation statement applied to "-3.5"
(`-7 / 2 ^ 1`). -/
theorem C1_witness :
    parse_amount "-3.5" = Except.ok (ratTrunc ((-7 : ℚ) / 2 ^ 1 * 1000)) :=
  C1_amount_milliunits.1 "-3.5" (-7) 1 (by norm_num) (by norm_num)
    (by
      rw [show parseFloat (pyStrip (stripDollars "-3.5")) =
        some (-((3 : ℚ) + 5 / 10 ^ 1)) from rfl]
      norm_num)

/-- C2: as stated the claim fails at "$$5": `parse_amount` removes every
dollar sign, so "$$5" parses successfully to 5000 milliunits instead of
failing with `InvalidAmount`. -/
theorem C2_counterexample : parse_amount "$$5" = Except.ok 5000 :=
  parse_amount_eval "$$5" ((5 : ℚ)) 5000 rfl (by norm_num)

/-- C2 (amended): every amount string whose remainder after removing all
dollar signs and stripping whitespace contains an ASCII character no
Python float literal can contain (outside digits, sign, point,
underscore, exponent markers and the `inf`/`nan` letters) fails with
`InvalidAmount`, as do "" and "abc"; "$$5" however succeeds with 5000
because all dollar signs are removed, not only a single leading one.
(Inputs `float()` accepts but this embedding does not — underscored
digits, Unicode digits, `inf`/`nan` and overflowing magnitudes — are
left unasserted.) -/
theorem C2_invalid_amount :
    (∀ (s : String) (c : Char), c ∈ (pyStrip (stripDollars s)).toList →
      c.toNat < 128 → floatAlphabet c = false →
      parse_amount s = Except.error YnabError.InvalidAmount) ∧
    parse_amount "" = Except.error YnabError.InvalidAmount ∧
    parse_amount "abc" = Except.error YnabError.InvalidAmount ∧
    parse_amount "$$5" = Except.ok 5000 :=
  ⟨parse_amount_invalid_of_badChar, by decide, by decide,
    parse_amount_eval "$$5" ((5 : ℚ)) 5000 rfl (by norm_num)⟩

/-- C2 witness: the bad-character statement applied to "abc" and its
character 'b'. -/
theorem C2_witness : parse_amount "abc" = Except.error YnabError.InvalidAmount :=
  C2_invalid_amount.1 "abc" 'b' (by decide) (by decide) (by decide)

/-- C3: the end-to-end example of the design: the Chase/Costco directory
and the "$45.00" purchase map to exactly the stated transaction. -/
theorem C3_end_to_end :
    parse_transaction
      { accounts := [{ name := some "Chase", id := some "acc-1" }]
        merchants := [{ name := some "Costco", category_id := some "cat-9" }] }
      { amount := "$45.00", name := "x", card := "Chase", merchant := "Costco"
        date := "2025-01-01T10:00:00-05:00" } =
    Except.ok
      { account_id := some "acc-1", date := ⟨2025, 1, 1⟩, amount := 45000
        payee_name := "Costco", category_id := some "cat-9" } := by
  rw [parse_transaction_eq_ok _ _ (some "acc-1") ⟨2025, 1, 1⟩ 45000 (by decide)
    (by decide)
    (parse_amount_eval "$45.00" ((45 : ℚ) + 0 / 10 ^ 2) 45000 rfl (by norm_num))]
  rfl

/-- C4: `parse_date` uses only the part before the first `T` (time and
timezone are discarded entirely), and both stated examples evaluate to
2025-08-09. -/
theorem C4_date_discards_time :
    (∀ s rest : String, 'T' ∉ s.toList →
      parse_date (s ++ "T" ++ rest) = parse_date s) ∧
    parse_date "2025-08-09T21:26:45-04:00" = Except.ok ⟨2025, 8, 9⟩ ∧
    parse_date "2025-08-09" = Except.ok ⟨2025, 8, 9⟩ := by
  refine ⟨?_, by decide, by decide⟩
  intro s rest h
  unfold parse_date
  rw [takeBeforeT_append s rest h]

/-- C4 witness: the general statement applied to the stated timestamp. -/
theorem C4_witness :
    parse_date ("2025-08-09" ++ "T" ++ "21:26:45-04:00") =
      parse_date "2025-08-09" :=
  C4_date_discards_time.1 "2025-08-09" "21:26:45-04:00" (by decide)

/-- C5: whenever the portion before the first `T` is not a well-formed
calendar date, `parse_date` fails with `InvalidDate`; in particular for
"2025-13-40" and "not-a-date". -/
theorem C5_invalid_date :
    (∀ s : String, dateFromIso (takeBeforeT s) = none →
      parse_date s = Except.error YnabError.InvalidDate) ∧
    parse_date "2025-13-40" = Except.error YnabError.InvalidDate ∧
    parse_date "not-a-date" = Except.error YnabError.InvalidDate :=
  ⟨parse_date_eq_error, by decide, by decide⟩

/-- C5 witness: the general statement applied to "2025-13-40". -/
theorem C5_witness : parse_date "2025-13-40" = Except.error YnabError.InvalidDate :=
  C5_invalid_date.1 "2025-13-40" (by decide)

/-- C6: the account lookup returns the id of the first entry whose name
exactly equals the card name (so duplicate "Chase" entries yield "A1"),
and fails with `AccountNotFound` exactly when no entry's name matches. -/
theorem C6_account_first_match :
    (∀ (secrets : Secrets) (card : String) (pre post : List Account) (a : Account),
      secrets.accounts = pre ++ a :: post →
      (∀ b ∈ pre, b.name ≠ some card) → a.name = some card →
      get_account_id_from_card_name secrets card = Except.ok a.id) ∧
    get_account_id_from_card_name
      { accounts := [{ name := some "Chase", id := some "A1" },
          { name := some "Chase", id := some "A2" }], merchants := [] } "Chase" =
      Except.ok (some "A1") ∧
    (∀ (secrets : Secrets) (card : String),
      (∀ b ∈ secrets.accounts, b.name ≠ some card) →
      get_account_id_from_card_name secrets card =
        Except.error YnabError.AccountNotFound) := by
  refine ⟨?_, by decide, ?_⟩
  · intro secrets card pre post a hacc hpre ha
    unfold get_account_id_from_card_name
    rw [hacc]
    exact lookupAccount_first card pre post a hpre ha
  · intro secrets card h
    unfold get_account_id_from_card_name
    exact (lookupAccount_error_iff card secrets.accounts).mpr h

/-- C6 witness: the first-match statement applied to the duplicate-name
directory of the claim. -/
theorem C6_witness :
    get_account_id_from_card_name
      { accounts := [{ name := some "Chase", id := some "A1" },
          { name := some "Chase", id := some "A2" }], merchants := [] } "Chase" =
      Except.ok (some "A1") :=
  C6_account_first_match.1
    { accounts := [{ name := some "Chase", id := some "A1" },
        { name := some "Chase", id := some "A2" }], merchants := [] }
    "Chase" [] [{ name := some "Chase", id := some "A2" }]
    { name := some "Chase", id := some "A1" } rfl (by simp) rfl

/-- C7: an unmatched merchant name yields `none` (no error) from the
category lookup, and `parse_transaction` on an otherwise valid purchase
still succeeds with `category_id` absent. -/
theorem C7_absent_category :
    (∀ (secrets : Secrets) (m : String),
      (∀ e ∈ secrets.merchants, e.name ≠ some m) →
      get_category_id_from_merchant_name secrets m = none) ∧
    (∀ (secrets : Secrets) (transactionDto : TransactionPostDto)
      (acc : Option String) (d : PyDate) (amt : ℤ),
      get_account_id_from_card_name secrets transactionDto.card = Except.ok acc →
      parse_date transactionDto.date = Except.ok d →
      parse_amount transactionDto.amount = Except.ok amt →
      (∀ e ∈ secrets.merchants, e.name ≠ some transactionDto.merchant) →
      parse_transaction secrets transactionDto = Except.ok
        { account_id := acc, date := d, amount := amt
          payee_name := transactionDto.merchant, category_id := none }) := by
  refine ⟨?_, ?_⟩
  · intro secrets m h
    exact lookupCategory_none m secrets.merchants h
  · intro secrets transactionDto acc d amt h1 h2 h3 h4
    rw [parse_transaction_eq_ok secrets transactionDto acc d amt h1 h2 h3]
    rw [show get_category_id_from_merchant_name secrets transactionDto.merchant
        = none from lookupCategory_none _ _ h4]

/-- C7 witness: the mapping statement applied to an unknown merchant
"Target" over an empty merchants directory. -/
theorem C7_witness :
    parse_transaction
      { accounts := [{ name := some "Chase", id := some "acc-1" }]
        merchants := [] }
      { amount := "$45.00", name := "x", card := "Chase", merchant := "Target"
        date := "2025-01-01" } =
    Except.ok
      { account_id := some "acc-1", date := ⟨2025, 1, 1⟩, amount := 45000
        payee_name := "Target", category_id := none } :=
  C7_absent_category.2 _ _ (some "acc-1") ⟨2025, 1, 1⟩ 45000 (by decide)
    (by decide)
    (parse_amount_eval "$45.00" ((45 : ℚ) + 0 / 10 ^ 2) 45000 rfl (by norm_num))
    (by simp)

/-- C8: `parse_transaction` resolves the account, then parses the date,
then the amount, propagating each failure kind unchanged, so the earliest
failing step determines the reported error; the two stated combinations
evaluate accordingly. -/
theorem C8_error_order :
    (∀ (secrets : Secrets) (transactionDto : TransactionPostDto),
      get_account_id_from_card_name secrets transactionDto.card =
        Except.error YnabError.AccountNotFound →
      parse_transaction secrets transactionDto =
        Except.error YnabError.AccountNotFound) ∧
    (∀ (secrets : Secrets) (transactionDto : TransactionPostDto)
      (acc : Option String),
      get_account_id_from_card_name secrets transactionDto.card = Except.ok acc →
      parse_date transactionDto.date = Except.error YnabError.InvalidDate →
      parse_transaction secrets transactionDto =
        Except.error YnabError.InvalidDate) ∧
    (∀ (secrets : Secrets) (transactionDto : TransactionPostDto)
      (acc : Option String) (d : PyDate),
      get_account_id_from_card_name secrets transactionDto.card = Except.ok acc →
      parse_date transactionDto.date = Except.ok d →
      parse_amount transactionDto.amount = Except.error YnabError.InvalidAmount →
      parse_transaction secrets transactionDto =
        Except.error YnabError.InvalidAmount) ∧
    parse_transaction
      { accounts := [{ name := some "Chase", id := some "A1" }], merchants := [] }
      { amount := "abc", name := "x", card := "Unknown", merchant := "M"
        date := "bad-date" } = Except.error YnabError.AccountNotFound ∧
    parse_transaction
      { accounts := [{ name := some "Chase", id := some "A1" }], merchants := [] }
      { amount := "abc", name := "x", card := "Chase", merchant := "M"
        date := "bad-date" } = Except.error YnabError.InvalidDate :=
  ⟨parse_transaction_eq_error_account, parse_transaction_eq_error_date,
    parse_transaction_eq_error_amount, by decide, by decide⟩

/-- C8 witness: the amount-last statement applied to a valid card and
date with the invalid amount "abc". -/
theorem C8_witness :
    parse_transaction
      { accounts := [{ name := some "Chase", id := some "A1" }], merchants := [] }
      { amount := "abc", name := "x", card := "Chase", merchant := "M"
        date := "2025-01-01" } = Except.error YnabError.InvalidAmount :=
  C8_error_order.2.2.1 _ _ (some "A1") ⟨2025, 1, 1⟩ (by decide) (by decide)
    (by decide)

/-- C9: `parse_amount` is invariant under deleting every dollar sign from
its input (the code removes them all before parsing), and "5$5" and
"$$5" therefore parse to 55000 and 5000 milliunits. -/
theorem C9_dollar_invariance :
    (∀ s : String, parse_amount s = parse_amount (stripDollars s)) ∧
    parse_amount "5$5" = Except.ok 55000 ∧
    parse_amount "$$5" = Except.ok 5000 := by
  refine ⟨?_, parse_amount_eval "5$5" ((55 : ℚ)) 55000 rfl (by norm_num),
    parse_amount_eval "$$5" ((5 : ℚ)) 5000 rfl (by norm_num)⟩
  intro s
  unfold parse_amount
  rw [stripDollars_idem]

/-- C9 witness: the invariance statement applied to "5$5". -/
theorem C9_witness : parse_amount "5$5" = parse_amount (stripDollars "5$5") :=
  C9_dollar_invariance.1 "5$5"

/-- C10: the account lookup errs exactly when no entry's name matches; a
first matching entry without an id yields `Except.ok none` (no error),
and the produced transaction then carries an absent `account_id`. -/
theorem C10_missing_id :
    (∀ (secrets : Secrets) (card : String),
      get_account_id_from_card_name secrets card =
          Except.error YnabError.AccountNotFound ↔
        ∀ b ∈ secrets.accounts, b.name ≠ some card) ∧
    (∀ (secrets : Secrets) (card : String) (pre post : List Account) (a : Account),
      secrets.accounts = pre ++ a :: post →
      (∀ b ∈ pre, b.name ≠ some card) → a.name = some card → a.id = none →
      get_account_id_from_card_name secrets card = Except.ok none) ∧
    (∀ (secrets : Secrets) (transactionDto : TransactionPostDto) (d : PyDate)
      (amt : ℤ),
      get_account_id_from_card_name secrets transactionDto.card = Except.ok none →
      parse_date transactionDto.date = Except.ok d →
      parse_amount transactionDto.amount = Except.ok amt →
      parse_transaction secrets transactionDto = Except.ok
        { account_id := none, date := d, amount := amt
          payee_name := transactionDto.merchant
          category_id :=
            get_category_id_from_merchant_name secrets transactionDto.merchant }) := by
  refine ⟨?_, ?_, ?_⟩
  · intro secrets card
    exact lookupAccount_error_iff card secrets.accounts
  · intro secrets card pre post a hacc hpre ha hid
    unfold get_account_id_from_card_name
    rw [hacc, lookupAccount_first card pre post a hpre ha, hid]
  · intro secrets transactionDto d amt h1 h2 h3
    exact parse_transaction_eq_ok secrets transactionDto none d amt h1 h2 h3

/-- C10 witness: the missing-id statement applied to a directory whose
only "Chase" entry has no id. -/
theorem C10_witness :
    get_account_id_from_card_name
      { accounts := [{ name := some "Chase", id := none }], merchants := [] }
      "Chase" = Except.ok none :=
  C10_missing_id.2.1
    { accounts := [{ name := some "Chase", id := none }], merchants := [] }
    "Chase" [] [] { name := some "Chase", id := none } rfl (by simp) rfl rfl
